import Mathlib

/-!
# Verification of the insightface_demo face-database wrapper and HTTP layer

Shallow embedding of `python-package/qdrant_db.py` (class `FaceDB`),
`python-package/server/functions.py`, `python-package/server/routes.py` and the
attendance-cooldown tracker of `python-package/webcam_attendance.py`.

The external Qdrant vector store is modelled from the contract the spec gives
for it (a collection of `(id, vector, payload)` triples with upsert,
nearest-neighbour search under a score threshold, scroll and filtered delete,
using cosine similarity).  Its reachability is a boolean `conn`; when the store
is unreachable every client call raises a connection error.  Cosine similarity
over rational vectors is represented exactly by its signed square
(`cosKey q v = cos(q,v) * |cos(q,v)|`), a strictly monotone encoding that keeps
every score comparison decidable over `ℚ`.
-/

/-- Python exceptions that occur in the embedded code paths. -/
inductive PyExc where
  | valueError (msg : String)
  | typeError (msg : String)
  | attributeError (msg : String)
  | connectionError
deriving DecidableEq, Repr

/-- Values stored in the Python dicts the code builds.  `score q v` stands for
the float similarity score Qdrant reports for query `q` against stored vector
`v`; its numeric meaning is captured exactly by `cosKey q v` below. -/
inductive PyVal where
  | str (s : String)
  | score (q v : List ℚ)
deriving DecidableEq, Repr

/-- A Qdrant point payload as used by the repository: `{"name": ...}` written
by `FaceDB.add_face`, and `personnelId` which the spec's store contract allows
a payload to carry (`payload {name, personnel_id?}`). -/
structure Payload where
  name : Option String
  personnelId : Option String
deriving DecidableEq, Repr

/-- A stored Qdrant point, after `qdrant_client.models.PointStruct`. -/
structure PointStruct where
  id : String
  vector : List ℚ
  payload : Payload
deriving DecidableEq, Repr

/-- The content of the remote "faces" collection. -/
abbrev Store := List PointStruct

/-- Dot product of two embedding vectors. -/
def dot (u v : List ℚ) : ℚ := (List.zipWith (· * ·) u v).sum

/-- Squared Euclidean norm. -/
def normSq (v : List ℚ) : ℚ := dot v v

/-- Squared cosine similarity, with the convention that it is `0` when either
vector is zero (ℚ division by zero yields `0`, matching a zero vector staying
zero under Qdrant's normalisation). -/
def cosSq (q v : List ℚ) : ℚ := (dot q v) ^ 2 / (normSq q * normSq v)

/-- Signed square of the cosine similarity: `cos * |cos|`.  Strictly monotone
in the cosine score, so score comparisons and the score value `1.0` are
represented exactly in `ℚ`. -/
def cosKey (q v : List ℚ) : ℚ :=
  if 0 ≤ dot q v then cosSq q v else -(cosSq q v)

/-- The same signed-square encoding applied to a raw threshold. -/
def thrKey (t : ℚ) : ℚ := if 0 ≤ t then t ^ 2 else -(t ^ 2)

/-- `cos(q,v) ≥ t`, decided on the signed-square encoding. -/
def scoreGE (q v : List ℚ) (t : ℚ) : Bool := thrKey t ≤ cosKey q v

/-- The stored point with maximal cosine similarity to the query (the first
such point on ties), i.e. Qdrant's `limit=1` search result before the
threshold filter. -/
def bestPoint (q : List ℚ) : Store → Option PointStruct
  | [] => none
  | p :: rest =>
    match bestPoint q rest with
    | none => some p
    | some b => if cosKey q b.vector ≤ cosKey q p.vector then some p else some b

/-- Modelled from the spec: the store client's `upsert` appends the point to
the collection, and raises a connection error when the store is unreachable. -/
def client_upsert (conn : Bool) (st : Store) (p : PointStruct) : Except PyExc Store :=
  if conn then .ok (st ++ [p]) else .error .connectionError

/-- Modelled from the spec: `scroll` returns up to `limit` stored points. -/
def client_scroll (conn : Bool) (st : Store) (limit : ℕ) : Except PyExc (List PointStruct) :=
  if conn then .ok (st.take limit) else .error .connectionError

/-- Modelled from the spec: filtered delete removes every point whose payload
`name` matches the given value. -/
def client_delete (conn : Bool) (st : Store) (name : String) : Except PyExc Store :=
  if conn then .ok (st.filter fun p => p.payload.name ≠ some name)
  else .error .connectionError

/-- Modelled from the spec: nearest-neighbour search with `limit=1` and a
score threshold returns the best-scoring point when its similarity reaches the
threshold, and an empty result list otherwise. -/
def client_search (conn : Bool) (st : Store) (q : List ℚ) (t : ℚ) :
    Except PyExc (List PointStruct) :=
  if conn then
    .ok (match bestPoint q st with
      | none => []
      | some p => if scoreGE q p.vector t then [p] else [])
  else .error .connectionError

/-- Modelled from the spec: `get_collection` reports the number of stored
points (`points_count`). -/
def client_get_collection (conn : Bool) (st : Store) : Except PyExc ℕ :=
  if conn then .ok st.length else .error .connectionError

namespace FaceDB

/-- `FaceDB.add_face` (qdrant_db.py): rejects an embedding whose length is not
512 with a `ValueError` before any store access, then upserts a point whose
payload is `{"name": name}`; a store exception is re-raised.  The randomly
generated `uuid` is passed in as `newId`. -/
def add_face (conn : Bool) (st : Store) (newId : String) (name : String)
    (embedding : List ℚ) : Except PyExc (String × Store) :=
  if embedding.length ≠ 512 then
    .error (.valueError "Embedding size must be 512")
  else
    match client_upsert conn st ⟨newId, embedding, ⟨some name, none⟩⟩ with
    | .ok st' => .ok (newId, st')
    | .error e => .error e

/-- `FaceDB.search_face` (qdrant_db.py): rejects a non-512 embedding with a
`ValueError`, then searches with `limit=1` and the score threshold; on a hit it
returns the dict `{'name': payload.get('name','Unknown'), 'score': score}`,
otherwise `None`.  Any store exception is swallowed and `None` returned. -/
def search_face (conn : Bool) (st : Store) (embedding : List ℚ) (threshold : ℚ) :
    Except PyExc (Option (List (String × PyVal))) :=
  if embedding.length ≠ 512 then
    .error (.valueError "Embedding size must be 512")
  else
    match client_search conn st embedding threshold with
    | .ok [] => .ok none
    | .ok (p :: _) =>
      .ok (some [("name", PyVal.str (p.payload.name.getD "Unknown")),
                 ("score", PyVal.score embedding p.vector)])
    | .error _ => .ok none

/-- `FaceDB.list_people` (qdrant_db.py): scrolls up to 10000 points, collects
the payload names that are present into a set, and returns them sorted; on a
store exception it returns the empty list. -/
def list_people (conn : Bool) (st : Store) : List String :=
  match client_scroll conn st 10000 with
  | .ok points => ((points.filterMap fun p => p.payload.name).toFinset).sort (· ≤ ·)
  | .error _ => []

/-- `FaceDB.delete_person` (qdrant_db.py): issues a filtered delete on the
payload name and returns `True`; on a store exception it returns `False` and
the store is unchanged. -/
def delete_person (conn : Bool) (st : Store) (name : String) : Bool × Store :=
  match client_delete conn st name with
  | .ok st' => (true, st')
  | .error _ => (false, st)

/-- Database statistics as built by `FaceDB.get_stats`. -/
structure Stats where
  total_faces : ℕ
  total_people : ℕ
  people_list : List String
deriving DecidableEq, Repr

/-- `FaceDB.get_stats` (qdrant_db.py): reads the collection point count and
the people list; on a store exception it returns the all-zero dict. -/
def get_stats (conn : Bool) (st : Store) : Stats :=
  match client_get_collection conn st with
  | .ok n => ⟨n, (list_people conn st).length, list_people conn st⟩
  | .error _ => ⟨0, 0, []⟩

end FaceDB

/-- The methods defined on class `FaceDB` in qdrant_db.py (besides
`__init__`). -/
def FaceDB_method_names : List String :=
  ["_setup_collection", "add_face", "search_face", "list_people",
   "delete_person", "get_stats"]

/-- Python `dict.get(key)` on an association-list dict. -/
def dictGet (d : List (String × PyVal)) (k : String) : Option PyVal :=
  (d.find? fun kv => kv.1 = k).map (·.2)

/-- webcam_attendance.py line 220: `person_id = match.get('personnelId', name)`
— the personnel id from the match dict when present, else the name. -/
def webcam_person_id (m : List (String × PyVal)) (name : String) : String :=
  match dictGet m "personnelId" with
  | some (PyVal.str s) => s
  | _ => name

/-! ## Attendance cooldown tracker (webcam_attendance.py)

The in-memory dict `attendance_tracker` maps a person identifier to the
timestamp of their last recorded mark; `time.time()` is passed explicitly as
`now`. -/

/-- Python dict lookup `attendance_tracker[person_id]` /
`person_id in attendance_tracker` on the association-list model. -/
def tracker_lookup (tr : List (String × ℚ)) (person_id : String) : Option ℚ :=
  (tr.find? fun kv => kv.1 = person_id).map (·.2)

/-- `should_mark_attendance` (webcam_attendance.py 131-138): allow when the
person was never marked, or when `now - last ≥ ATTENDANCE_COOLDOWN`. -/
def should_mark_attendance (tr : List (String × ℚ)) (cooldown : ℚ)
    (person_id : String) (now : ℚ) : Bool :=
  match tracker_lookup tr person_id with
  | none => true
  | some last => cooldown ≤ now - last

/-- `update_attendance_tracker` (webcam_attendance.py 140-142): record `now`
as the person's last-marked time (dict assignment replaces any old entry). -/
def update_attendance_tracker (tr : List (String × ℚ)) (person_id : String)
    (now : ℚ) : List (String × ℚ) :=
  (person_id, now) :: tr.filter fun kv => kv.1 ≠ person_id

/-! ## Flask server layer (server/routes.py, server/functions.py)

`functions.py` holds two process-global handles: `face_app` (the model) and
`facedb` (the database); `is_database_connected` / `is_face_model_loaded` test
them for `None`.  A request carries its JSON fields plus the outcome of the
external image decode and face detection for the posted image. -/

/-- The server's global state: whether `facedb` and `face_app` are set, and
the content of the remote store. -/
structure ServerState where
  dbConnected : Bool
  modelLoaded : Bool
  store : Store
deriving DecidableEq, Repr

/-- Python truthiness of an optional JSON string field (`data.get(k)`):
`None` and the empty string are falsy. -/
def truthy : Option String → Bool
  | none => false
  | some s => s ≠ ""

/-- A POST /add_face request: JSON body fields and the behaviour of the
external image pipeline on the posted image. -/
structure AddFaceReq where
  hasJson : Bool
  name : Option String
  personnelId : Option String
  image : Option String
  /-- whether `base64_to_cv2_image` succeeds on the posted image -/
  imageDecodes : Bool
  /-- embeddings of the faces the model detects in the decoded image -/
  detectedEmbeddings : List (List ℚ)
deriving DecidableEq, Repr

/-- A DELETE /delete_face request body. -/
structure DeleteFaceReq where
  hasJson : Bool
  name : Option String
deriving DecidableEq, Repr

/-- JSON response bodies built by routes.py. -/
inductive RespBody where
  /-- `{'error': msg}` -/
  | err (msg : String)
  /-- the /add_face success body -/
  | addOk (name personnelId : String) (faces_detected : ℕ)
  /-- the /list_faces success body -/
  | listOk (faces : List String) (count : ℕ)
  /-- the /delete_face body `{'success': b, 'message': msg}` -/
  | delResult (success : Bool) (msg : String)
deriving DecidableEq, Repr

/-- Whether a response body is a JSON error body `{'error': ...}`. -/
def RespBody.isErr : RespBody → Bool
  | .err _ => true
  | _ => false

/-- An HTTP response: status code and JSON body. -/
structure HttpResponse where
  status : ℕ
  body : RespBody
deriving DecidableEq, Repr

/-- `get_face_embedding` (server/functions.py 54-68): `ValueError` when the
model is not loaded or no face is detected; otherwise the first detected
face's embedding together with the number of detected faces. -/
def get_face_embedding (modelLoaded : Bool) (detected : List (List ℚ)) :
    Except PyExc (List ℚ × ℕ) :=
  if ¬ modelLoaded then .error (.valueError "Face analysis model not initialized")
  else
    match detected with
    | [] => .error (.valueError "No faces detected in the image")
    | e :: rest => .ok (e, (e :: rest).length)

/-- The parameter list of `add_face_to_database` in server/functions.py line
90: `def add_face_to_database(name, embedding):`. -/
def add_face_to_database_params : List String := ["name", "embedding"]

/-- The call `add_face_to_database(name, embedding, personnel_id=personnel_id)`
made by routes.py line 74.  Since `add_face_to_database` (functions.py 90) has
no `personnel_id` parameter, Python raises `TypeError` at the call, before the
function body — and hence before any `FaceDB` access — runs. -/
def add_face_to_database_kwcall (name : String) (embedding : List ℚ)
    (personnel_id : String) : Except PyExc Unit :=
  .error (.typeError
    "add_face_to_database() got an unexpected keyword argument personnel_id")

/-- `list_all_faces` (server/functions.py 106-113) calls
`facedb.list_all_faces()`; class `FaceDB` defines no such attribute (see
`FaceDB_method_names`), so the attribute lookup raises `AttributeError`. -/
def list_all_faces_call : Except PyExc (List String) :=
  .error (.attributeError "FaceDB object has no attribute list_all_faces")

/-- `delete_face_from_database` (server/functions.py 115-121) calls
`facedb.delete_face(name)`; class `FaceDB` defines no such attribute, so the
attribute lookup raises `AttributeError`. -/
def delete_face_call (name : String) : Except PyExc Bool :=
  .error (.attributeError "FaceDB object has no attribute delete_face")

/-- The body of the /add_face handler's outer `try` (routes.py 36-82),
returning either a response or an uncaught exception.  The inner
`try/except ValueError` blocks around the image decode and the embedding
extraction convert those `ValueError`s into 400 responses. -/
def add_face_try (st : ServerState) (req : AddFaceReq) : Except PyExc HttpResponse :=
  if ¬ st.dbConnected then .ok ⟨500, .err "Qdrant database not connected"⟩
  else if ¬ req.hasJson then .ok ⟨400, .err "No JSON data provided"⟩
  else if ¬ truthy req.name then .ok ⟨400, .err "Name is required"⟩
  else if ¬ truthy req.personnelId then .ok ⟨400, .err "personnelId is required"⟩
  else if ¬ truthy req.image then .ok ⟨400, .err "Image data is required"⟩
  else if ¬ req.imageDecodes then .ok ⟨400, .err "Invalid image data"⟩
  else
    match get_face_embedding st.modelLoaded req.detectedEmbeddings with
    | .error (.valueError msg) => .ok ⟨400, .err msg⟩
    | .error e => .error e
    | .ok (embedding, faces_detected) =>
      match add_face_to_database_kwcall (req.name.getD "") embedding
          (req.personnelId.getD "") with
      | .error e => .error e
      | .ok _ =>
        .ok ⟨200, .addOk (req.name.getD "") (req.personnelId.getD "") faces_detected⟩

/-- The /add_face handler (routes.py 33-86): the outer `except Exception`
turns any uncaught exception into a 500.  The handler never reaches
`FaceDB.add_face`, so the store is returned unchanged on every path. -/
def add_face_route (st : ServerState) (req : AddFaceReq) : HttpResponse × Store :=
  match add_face_try st req with
  | .ok r => (r, st.store)
  | .error _ => (⟨500, .err "Internal server error"⟩, st.store)

/-- The body of the /list_faces handler's `try` (routes.py 147-158). -/
def list_faces_try (st : ServerState) : Except PyExc HttpResponse :=
  if ¬ st.dbConnected then .ok ⟨500, .err "Qdrant database not connected"⟩
  else
    match list_all_faces_call with
    | .error e => .error e
    | .ok faces => .ok ⟨200, .listOk faces faces.length⟩

/-- The /list_faces handler (routes.py 144-162). -/
def list_faces_route (st : ServerState) : HttpResponse :=
  match list_faces_try st with
  | .ok r => r
  | .error _ => ⟨500, .err "Internal server error"⟩

/-- The body of the /delete_face handler's `try` (routes.py 167-191). -/
def delete_face_try (st : ServerState) (req : DeleteFaceReq) :
    Except PyExc HttpResponse :=
  if ¬ st.dbConnected then .ok ⟨500, .err "Qdrant database not connected"⟩
  else if ¬ req.hasJson then .ok ⟨400, .err "No JSON data provided"⟩
  else if ¬ truthy req.name then .ok ⟨400, .err "Name is required"⟩
  else
    match delete_face_call (req.name.getD "") with
    | .error e => .error e
    | .ok true => .ok ⟨200, .delResult true "Face deleted successfully"⟩
    | .ok false => .ok ⟨404, .delResult false "Face not found"⟩

/-- The /delete_face handler (routes.py 164-195). -/
def delete_face_route (st : ServerState) (req : DeleteFaceReq) : HttpResponse :=
  match delete_face_try st req with
  | .ok r => r
  | .error _ => ⟨500, .err "Internal server error"⟩

/-! ## Helper lemmas -/

theorem dot_self_nonneg (v : List ℚ) : 0 ≤ dot v v := by
  induction v with
  | nil => simp [dot]
  | cons x xs ih =>
    have hx : 0 ≤ x * x := mul_self_nonneg x
    simpa [dot, List.zipWith] using add_nonneg hx ih

theorem bestPoint_cons_ne_none (q : List ℚ) (a : PointStruct) (rest : Store) :
    bestPoint q (a :: rest) ≠ none := by
  simp only [bestPoint]
  cases bestPoint q rest with
  | none => simp
  | some b =>
    show (if cosKey q b.vector ≤ cosKey q a.vector then some a else some b) ≠ none
    split <;> simp

theorem bestPoint_spec {q : List ℚ} {st : Store} {p : PointStruct}
    (h : bestPoint q st = some p) :
    p ∈ st ∧ ∀ w ∈ st, cosKey q w.vector ≤ cosKey q p.vector := by
  induction st generalizing p with
  | nil => simp [bestPoint] at h
  | cons a rest ih =>
    simp only [bestPoint] at h
    cases hb : bestPoint q rest with
    | none =>
      rw [hb] at h
      simp only [Option.some.injEq] at h
      cases rest with
      | nil =>
        subst h
        refine ⟨List.mem_singleton_self a, ?_⟩
        intro w hw
        rcases List.mem_singleton.mp hw with rfl
        exact le_refl _
      | cons c cs => exact absurd hb (bestPoint_cons_ne_none q c cs)
    | some b =>
      rw [hb] at h
      replace h : (if cosKey q b.vector ≤ cosKey q a.vector then some a else some b)
          = some p := h
      obtain ⟨hbmem, hbmax⟩ := ih hb
      by_cases hle : cosKey q b.vector ≤ cosKey q a.vector
      · rw [if_pos hle] at h
        obtain rfl : a = p := by injection h
        refine ⟨List.mem_cons_self _ _, ?_⟩
        intro w hw
        rcases List.mem_cons.mp hw with rfl | hw'
        · exact le_refl _
        · exact le_trans (hbmax w hw') hle
      · rw [if_neg hle] at h
        obtain rfl : b = p := by injection h
        refine ⟨List.mem_cons_of_mem _ hbmem, ?_⟩
        intro w hw
        rcases List.mem_cons.mp hw with rfl | hw'
        · exact le_of_not_le hle
        · exact hbmax w hw'

theorem cosKey_self {v : List ℚ} (h : normSq v ≠ 0) : cosKey v v = 1 := by
  have hnn : 0 ≤ dot v v := dot_self_nonneg v
  have h' : dot v v ≠ 0 := by simpa [normSq] using h
  unfold cosKey cosSq normSq
  rw [if_pos hnn, sq]
  exact div_self (mul_ne_zero h' h')

/-- A concrete 512-dimensional embedding with nonzero norm, used by witnesses. -/
def e512 : List ℚ := 1 :: List.replicate 511 0

theorem e512_length : e512.length = 512 := by
  rw [e512, List.length_cons, List.length_replicate]

/-- A concrete all-zero 512-dimensional embedding. -/
def z512 : List ℚ := List.replicate 512 0

theorem z512_length : z512.length = 512 := by rw [z512, List.length_replicate]

theorem dot_cons (x y : ℚ) (xs ys : List ℚ) :
    dot (x :: xs) (y :: ys) = x * y + dot xs ys := by
  simp [dot, List.zipWith]

theorem dot_replicate_zero (n : ℕ) :
    dot (List.replicate n 0) (List.replicate n 0) = 0 := by
  induction n with
  | zero => simp [dot]
  | succ k ih => rw [List.replicate_succ, dot_cons, ih]; ring

theorem normSq_e512 : normSq e512 = 1 := by
  rw [normSq, e512, dot_cons, dot_replicate_zero]; ring

theorem normSq_z512 : normSq z512 = 0 := by
  rw [normSq, z512, dot_replicate_zero]

/-! ## Claims -/

/-- C5: for every embedding whose length is not exactly 512, both
`FaceDB.add_face` and `FaceDB.search_face` raise a `ValueError` (so no result
is produced and the store is never reached), and `add_face` only ever inserts
512-dimensional vectors, preserving the all-512 store invariant. -/
theorem c5_dimension_check :
    (∀ (conn : Bool) (st : Store) (newId name : String) (emb : List ℚ),
      emb.length ≠ 512 →
        FaceDB.add_face conn st newId name emb
          = .error (.valueError "Embedding size must be 512")) ∧
    (∀ (conn : Bool) (st : Store) (emb : List ℚ) (t : ℚ),
      emb.length ≠ 512 →
        FaceDB.search_face conn st emb t
          = .error (.valueError "Embedding size must be 512")) ∧
    (∀ (conn : Bool) (st : Store) (newId name : String) (emb : List ℚ)
        (rid : String) (st' : Store),
      (∀ p ∈ st, p.vector.length = 512) →
      FaceDB.add_face conn st newId name emb = .ok (rid, st') →
      ∀ p ∈ st', p.vector.length = 512) := by
  refine ⟨?_, ?_, ?_⟩
  · intro conn st newId name emb h
    simp [FaceDB.add_face, h]
  · intro conn st emb t h
    simp [FaceDB.search_face, h]
  · intro conn st newId name emb rid st' hinv hok p hp
    by_cases hlen : emb.length = 512
    · cases conn with
      | false => simp [FaceDB.add_face, hlen, client_upsert] at hok
      | true =>
        simp [FaceDB.add_face, hlen, client_upsert] at hok
        obtain ⟨-, rfl⟩ := hok
        rcases List.mem_append.mp hp with hmem | hmem
        · exact hinv p hmem
        · rcases List.mem_singleton.mp hmem with rfl
          exact hlen
    · simp [FaceDB.add_face, hlen] at hok

/-- Witness for C5 at concrete inputs: the empty embedding is rejected by both
operations, and adding `e512` to the empty store yields a store whose only
vector has 512 dimensions. -/
theorem c5_dimension_check_witness :
    (FaceDB.add_face true [] "id0" "alice" []
      = .error (.valueError "Embedding size must be 512")) ∧
    (FaceDB.search_face true [] [] (11/20)
      = .error (.valueError "Embedding size must be 512")) ∧
    (∀ p ∈ ([⟨"id0", e512, ⟨some "alice", none⟩⟩] : Store),
      p.vector.length = 512) :=
  ⟨c5_dimension_check.1 true [] "id0" "alice" [] (by decide),
   c5_dimension_check.2.1 true [] [] (11/20) (by decide),
   c5_dimension_check.2.2 true [] "id0" "alice" e512 "id0"
     [⟨"id0", e512, ⟨some "alice", none⟩⟩] (by simp)
     (by simp [FaceDB.add_face, e512_length, client_upsert])⟩

/-- C10: when the store call completes, `FaceDB.delete_person` returns `True`
regardless of whether any record with that name existed (in particular on the
empty store), and it returns `False` exactly when the store call raises. -/
theorem c10_delete_person_boolean :
    (∀ (st : Store) (name : String), (FaceDB.delete_person true st name).1 = true) ∧
    (FaceDB.delete_person true [] "ghost" = (true, [])) ∧
    (∀ (st : Store) (name : String),
      FaceDB.delete_person false st name = (false, st)) := by
  refine ⟨?_, by simp [FaceDB.delete_person, client_delete], ?_⟩
  · intro st name
    simp [FaceDB.delete_person, client_delete]
  · intro st name
    simp [FaceDB.delete_person, client_delete]

/-- Counterexample to C3 as stated: with the store unreachable,
`FaceDB.search_face` does not propagate the connection error — it swallows the
exception and returns `None`. -/
theorem c3_counterexample :
    FaceDB.search_face false [] e512 (11/20) = .ok none ∧
    FaceDB.search_face false [] e512 (11/20)
      ≠ .error PyExc.connectionError := by
  constructor
  · simp [FaceDB.search_face, e512_length, client_search]
  · simp [FaceDB.search_face, e512_length, client_search]

/-- C3 (amended): with the store unreachable, `add_face` propagates the
connection error, but `search_face` returns `None`, `list_people` returns the
empty list, `delete_person` returns `False` with the store unchanged, and
`get_stats` returns the all-zero statistics; each operation issues its store
call exactly once (no retries, by construction of the definitions). -/
theorem c3_unreachable_behaviour :
    (∀ (st : Store) (newId name : String) (emb : List ℚ), emb.length = 512 →
      FaceDB.add_face false st newId name emb = .error .connectionError) ∧
    (∀ (st : Store) (emb : List ℚ) (t : ℚ), emb.length = 512 →
      FaceDB.search_face false st emb t = .ok none) ∧
    (∀ st : Store, FaceDB.list_people false st = []) ∧
    (∀ (st : Store) (name : String),
      FaceDB.delete_person false st name = (false, st)) ∧
    (∀ st : Store, FaceDB.get_stats false st = ⟨0, 0, []⟩) := by
  refine ⟨?_, ?_, ?_, ?_, ?_⟩
  · intro st newId name emb h
    simp [FaceDB.add_face, h, client_upsert]
  · intro st emb t h
    simp [FaceDB.search_face, h, client_search]
  · intro st
    simp [FaceDB.list_people, client_scroll]
  · intro st name
    simp [FaceDB.delete_person, client_delete]
  · intro st
    simp [FaceDB.get_stats, client_get_collection]

/-- Witness for C3 (amended) at concrete inputs. -/
theorem c3_unreachable_behaviour_witness :
    FaceDB.add_face false [] "id0" "alice" e512 = .error .connectionError ∧
    FaceDB.search_face false [] e512 (11/20) = .ok none ∧
    FaceDB.list_people false [] = [] ∧
    FaceDB.delete_person false [] "alice" = (false, []) ∧
    FaceDB.get_stats false [] = ⟨0, 0, []⟩ :=
  ⟨c3_unreachable_behaviour.1 [] "id0" "alice" e512 e512_length,
   c3_unreachable_behaviour.2.1 [] e512 (11/20) e512_length,
   c3_unreachable_behaviour.2.2.1 [],
   c3_unreachable_behaviour.2.2.2.1 [] "alice",
   c3_unreachable_behaviour.2.2.2.2 []⟩

/-- C9: after a person's mark is recorded at time `t0`, a second attendance
call at time `t1` is suppressed while `t1 - t0` is below the cooldown window
and permitted once the window has elapsed; a person never marked is always
permitted. -/
theorem c9_cooldown_tracker :
    (∀ (tr : List (String × ℚ)) (cd : ℚ) (person_id : String) (t0 t1 : ℚ),
      t1 - t0 < cd →
        should_mark_attendance (update_attendance_tracker tr person_id t0)
          cd person_id t1 = false) ∧
    (∀ (tr : List (String × ℚ)) (cd : ℚ) (person_id : String) (t0 t1 : ℚ),
      cd ≤ t1 - t0 →
        should_mark_attendance (update_attendance_tracker tr person_id t0)
          cd person_id t1 = true) ∧
    (∀ (tr : List (String × ℚ)) (cd : ℚ) (person_id : String) (t1 : ℚ),
      tracker_lookup tr person_id = none →
        should_mark_attendance tr cd person_id t1 = true) := by
  have hl : ∀ (tr : List (String × ℚ)) (person_id : String) (t0 : ℚ),
      tracker_lookup (update_attendance_tracker tr person_id t0) person_id
        = some t0 := by
    intro tr person_id t0
    simp [tracker_lookup, update_attendance_tracker, List.find?_cons]
  refine ⟨?_, ?_, ?_⟩
  · intro tr cd person_id t0 t1 h
    simp [should_mark_attendance, hl, not_le.mpr h]
  · intro tr cd person_id t0 t1 h
    simp [should_mark_attendance, hl, h]
  · intro tr cd person_id t1 h
    simp [should_mark_attendance, h]

/-- Witness for C9 at concrete inputs: cooldown 30, mark at time 100; a call
at time 110 is suppressed, a call at time 130 is permitted, and an unknown
person is permitted. -/
theorem c9_cooldown_tracker_witness :
    should_mark_attendance (update_attendance_tracker [] "P1" 100) 30 "P1" 110
      = false ∧
    should_mark_attendance (update_attendance_tracker [] "P1" 100) 30 "P1" 130
      = true ∧
    should_mark_attendance [] 30 "P1" 110 = true :=
  ⟨c9_cooldown_tracker.1 [] 30 "P1" 100 110 (by norm_num),
   c9_cooldown_tracker.2.1 [] 30 "P1" 100 130 (by norm_num),
   c9_cooldown_tracker.2.2 [] 30 "P1" 110 rfl⟩

/-- C6: with the database connected and a JSON body present, the /add_face
handler answers 400 with a JSON error body whenever the `name` or the `image`
field is absent (or empty); with the database disconnected it answers 500. -/
theorem c6_add_face_validation :
    (∀ (st : ServerState) (req : AddFaceReq),
      st.dbConnected = true → req.hasJson = true →
      (truthy req.name = false ∨ truthy req.image = false) →
        (add_face_route st req).1.status = 400 ∧
        (add_face_route st req).1.body.isErr = true) ∧
    (∀ (st : ServerState) (req : AddFaceReq),
      st.dbConnected = false →
        (add_face_route st req).1
          = ⟨500, .err "Qdrant database not connected"⟩) := by
  constructor
  · intro st req hdb hjson hmiss
    rcases hmiss with h | h
    · simp [add_face_route, add_face_try, hdb, hjson, h, RespBody.isErr]
    · by_cases hn : truthy req.name
      · by_cases hp : truthy req.personnelId
        · simp [add_face_route, add_face_try, hdb, hjson, hn, hp, h,
            RespBody.isErr]
        · simp [add_face_route, add_face_try, hdb, hjson, hn, hp,
            RespBody.isErr]
      · simp [add_face_route, add_face_try, hdb, hjson, hn, RespBody.isErr]
  · intro st req hdb
    simp [add_face_route, add_face_try, hdb]

/-- Witness for C6 at concrete inputs: a request missing its `name` gets 400;
with the database handle unset the same request gets 500. -/
theorem c6_add_face_validation_witness :
    ((add_face_route ⟨true, true, []⟩
        ⟨true, none, some "P1", some "img", true, [e512]⟩).1.status = 400 ∧
      (add_face_route ⟨true, true, []⟩
        ⟨true, none, some "P1", some "img", true, [e512]⟩).1.body.isErr
        = true) ∧
    (add_face_route ⟨false, true, []⟩
        ⟨true, none, some "P1", some "img", true, [e512]⟩).1
      = ⟨500, .err "Qdrant database not connected"⟩ :=
  ⟨c6_add_face_validation.1 ⟨true, true, []⟩
      ⟨true, none, some "P1", some "img", true, [e512]⟩ rfl rfl (Or.inl rfl),
   c6_add_face_validation.2 ⟨false, true, []⟩
      ⟨true, none, some "P1", some "img", true, [e512]⟩ rfl⟩

/-- C1 (code bug): `add_face_to_database` (server/functions.py 90) has no
`personnel_id` parameter, yet routes.py line 74 calls it with that keyword.
For every fully valid /add_face request (database connected, model loaded,
JSON with non-empty name, personnelId and image, decodable image, at least one
detected face) the handler therefore raises `TypeError`, answers 500, and the
store is left unchanged — no face record is ever stored. -/
theorem c1_add_face_typeerror :
    ("personnel_id" ∉ add_face_to_database_params) ∧
    (∀ (st : ServerState) (req : AddFaceReq),
      st.dbConnected = true → st.modelLoaded = true → req.hasJson = true →
      truthy req.name = true → truthy req.personnelId = true →
      truthy req.image = true → req.imageDecodes = true →
      req.detectedEmbeddings ≠ [] →
        (add_face_route st req).1.status = 500 ∧
        (add_face_route st req).2 = st.store) := by
  constructor
  · decide
  · intro st req h1 h2 h3 h4 h5 h6 h7 h8
    cases hd : req.detectedEmbeddings with
    | nil => exact absurd hd h8
    | cons e rest =>
      simp [add_face_route, add_face_try, get_face_embedding,
        add_face_to_database_kwcall, h1, h2, h3, h4, h5, h6, h7, hd]

/-- Witness for C1 at a concrete valid request. -/
theorem c1_add_face_typeerror_witness :
    (add_face_route ⟨true, true, []⟩
        ⟨true, some "Alice", some "P1", some "img", true, [e512]⟩).1.status
      = 500 ∧
    (add_face_route ⟨true, true, []⟩
        ⟨true, some "Alice", some "P1", some "img", true, [e512]⟩).2 = [] :=
  c1_add_face_typeerror.2 ⟨true, true, []⟩
    ⟨true, some "Alice", some "P1", some "img", true, [e512]⟩
    rfl rfl rfl (by decide) (by decide) (by decide) rfl (by simp)

/-- C2 (code bug): class `FaceDB` defines neither `list_all_faces` nor
`delete_face` (the wrapper methods are `list_people` and `delete_person`), yet
server/functions.py calls `facedb.list_all_faces()` and
`facedb.delete_face(name)`.  The attribute lookups raise `AttributeError`, so
with the database connected GET /list_faces always answers 500 and
DELETE /delete_face with a valid name always answers 500 — never the stored
faces with a count, nor a success/404 result. -/
theorem c2_list_delete_attributeerror :
    ("list_all_faces" ∉ FaceDB_method_names) ∧
    ("delete_face" ∉ FaceDB_method_names) ∧
    (∀ st : ServerState, st.dbConnected = true →
      list_faces_route st = ⟨500, .err "Internal server error"⟩) ∧
    (∀ (st : ServerState) (req : DeleteFaceReq),
      st.dbConnected = true → req.hasJson = true → truthy req.name = true →
        delete_face_route st req = ⟨500, .err "Internal server error"⟩) := by
  refine ⟨by decide, by decide, ?_, ?_⟩
  · intro st hdb
    simp [list_faces_route, list_faces_try, list_all_faces_call, hdb]
  · intro st req hdb hjson hname
    simp [delete_face_route, delete_face_try, delete_face_call, hdb, hjson,
      hname]

/-- Witness for C2 at concrete requests. -/
theorem c2_list_delete_attributeerror_witness :
    list_faces_route ⟨true, true, []⟩ = ⟨500, .err "Internal server error"⟩ ∧
    delete_face_route ⟨true, true, []⟩ ⟨true, some "Alice"⟩
      = ⟨500, .err "Internal server error"⟩ :=
  ⟨c2_list_delete_attributeerror.2.2.1 ⟨true, true, []⟩ rfl,
   c2_list_delete_attributeerror.2.2.2 ⟨true, true, []⟩ ⟨true, some "Alice"⟩
     rfl rfl (by decide)⟩

/-- C7: when `delete_person(name)` succeeds, every record whose payload name
equals that name is gone, so a subsequent `list_people()` is a sorted,
duplicate-free list of names that does not contain it. -/
theorem c7_delete_then_list_excludes :
    ∀ (conn : Bool) (st : Store) (name : String) (st' : Store),
      FaceDB.delete_person conn st name = (true, st') →
        name ∉ FaceDB.list_people conn st' ∧
        (FaceDB.list_people conn st').Sorted (· ≤ ·) ∧
        (FaceDB.list_people conn st').Nodup := by
  intro conn st name st' h
  cases conn with
  | false => simp [FaceDB.delete_person, client_delete] at h
  | true =>
    simp only [FaceDB.delete_person, client_delete, if_pos] at h
    replace h : ((true : Bool),
        st.filter fun p => p.payload.name ≠ some name) = (true, st') := h
    obtain rfl : (st.filter fun p => p.payload.name ≠ some name) = st' :=
      congrArg Prod.snd h
    refine ⟨?_, ?_, ?_⟩
    · intro hmem
      unfold FaceDB.list_people at hmem
      simp only [client_scroll, if_pos] at hmem
      replace hmem := Finset.mem_sort (α := String) (· ≤ ·) |>.mp hmem
      replace hmem := List.mem_toFinset.mp hmem
      obtain ⟨p, hp, hpn⟩ := List.mem_filterMap.mp hmem
      have hp' := List.take_subset 10000 _ hp
      have := List.of_mem_filter hp'
      simp [hpn] at this
    · unfold FaceDB.list_people
      simp only [client_scroll, if_pos]
      exact Finset.sort_sorted _ _
    · unfold FaceDB.list_people
      simp only [client_scroll, if_pos]
      exact Finset.sort_nodup _ _

/-- Witness for C7: deleting "bob" from a store holding one record for "bob"
succeeds, and the subsequent people list excludes "bob". -/
theorem c7_delete_then_list_excludes_witness :
    "bob" ∉ FaceDB.list_people true [] ∧
    (FaceDB.list_people true []).Sorted (· ≤ ·) ∧
    (FaceDB.list_people true []).Nodup :=
  c7_delete_then_list_excludes true [⟨"i1", e512, ⟨some "bob", none⟩⟩] "bob" []
    (by simp [FaceDB.delete_person, client_delete, List.filter])

/-- Shared evaluation of the default threshold's signed-square encoding. -/
theorem thrKey_default : thrKey (11/20) = 121/400 := by
  unfold thrKey
  rw [if_pos (by norm_num : (0:ℚ) ≤ 11/20)]
  norm_num

/-- Counterexample to C4 as stated: a stored payload carrying a personnel id
is matched, yet the dict `FaceDB.search_face` returns has no `personnelId`
key — the code builds only `{'name', 'score'}` (qdrant_db.py 117-120). -/
theorem c4_personnel_id_counterexample :
    (⟨"i1", e512, ⟨some "Alice", some "P1"⟩⟩ : PointStruct).payload.personnelId
      = some "P1" ∧
    FaceDB.search_face true [⟨"i1", e512, ⟨some "Alice", some "P1"⟩⟩] e512
        (11/20)
      = .ok (some [("name", PyVal.str "Alice"),
                   ("score", PyVal.score e512 e512)]) ∧
    dictGet [("name", PyVal.str "Alice"), ("score", PyVal.score e512 e512)]
      "personnelId" = none := by
  refine ⟨rfl, ?_, rfl⟩
  have hk : cosKey e512 e512 = 1 := cosKey_self (by rw [normSq_e512]; norm_num)
  have hs : scoreGE e512 e512 (11/20) = true := by
    unfold scoreGE
    rw [thrKey_default, hk]
    norm_num
  simp [FaceDB.search_face, e512_length, client_search, bestPoint, hs]

/-- C4 (amended): `search_face` returns at most one result — `None`, or the
single stored point of maximal cosine similarity provided its score reaches
the threshold, rendered as the dict `{'name', 'score'}` which never carries a
`personnelId` key; and it returns `None` whenever no stored vector reaches the
threshold. -/
theorem c4_search_single_result :
    (∀ (conn : Bool) (st : Store) (q : List ℚ) (t : ℚ), q.length = 512 →
      FaceDB.search_face conn st q t = .ok none ∨
      ∃ p ∈ st, (∀ w ∈ st, cosKey q w.vector ≤ cosKey q p.vector) ∧
        scoreGE q p.vector t = true ∧
        FaceDB.search_face conn st q t
          = .ok (some [("name", PyVal.str (p.payload.name.getD "Unknown")),
                       ("score", PyVal.score q p.vector)]) ∧
        dictGet [("name", PyVal.str (p.payload.name.getD "Unknown")),
                 ("score", PyVal.score q p.vector)] "personnelId" = none) ∧
    (∀ (conn : Bool) (st : Store) (q : List ℚ) (t : ℚ), q.length = 512 →
      (∀ p ∈ st, scoreGE q p.vector t = false) →
      FaceDB.search_face conn st q t = .ok none) := by
  constructor
  · intro conn st q t hq
    cases conn with
    | false => left; simp [FaceDB.search_face, hq, client_search]
    | true =>
      cases hb : bestPoint q st with
      | none => left; simp [FaceDB.search_face, hq, client_search, hb]
      | some p =>
        by_cases hs : scoreGE q p.vector t
        · right
          obtain ⟨hmem, hmax⟩ := bestPoint_spec hb
          exact ⟨p, hmem, hmax, hs,
            by simp [FaceDB.search_face, hq, client_search, hb, hs], rfl⟩
        · left
          simp [FaceDB.search_face, hq, client_search, hb, hs]
  · intro conn st q t hq hall
    cases conn with
    | false => simp [FaceDB.search_face, hq, client_search]
    | true =>
      cases hb : bestPoint q st with
      | none => simp [FaceDB.search_face, hq, client_search, hb]
      | some p =>
        have hs := hall p (bestPoint_spec hb).1
        simp [FaceDB.search_face, hq, client_search, hb, hs]

/-- Witness for C4 (amended) at a concrete query. -/
theorem c4_search_single_result_witness :
    FaceDB.search_face true [] e512 (11/20) = .ok none ∨
    ∃ p ∈ ([] : Store),
      (∀ w ∈ ([] : Store), cosKey e512 w.vector ≤ cosKey e512 p.vector) ∧
      scoreGE e512 p.vector (11/20) = true ∧
      FaceDB.search_face true [] e512 (11/20)
        = .ok (some [("name", PyVal.str (p.payload.name.getD "Unknown")),
                     ("score", PyVal.score e512 p.vector)]) ∧
      dictGet [("name", PyVal.str (p.payload.name.getD "Unknown")),
               ("score", PyVal.score e512 p.vector)] "personnelId" = none :=
  c4_search_single_result.1 true [] e512 (11/20) e512_length

/-- Counterexample to C8 as stated: the all-zero embedding has length 512, is
accepted by `add_face`, but searching with the same vector finds no match —
its cosine score is 0, below the default threshold, not ≈ 1.0. -/
theorem c8_zero_vector_counterexample :
    z512.length = 512 ∧
    FaceDB.add_face true [] "id0" "zoe" z512
      = .ok ("id0", [⟨"id0", z512, ⟨some "zoe", none⟩⟩]) ∧
    FaceDB.search_face true [⟨"id0", z512, ⟨some "zoe", none⟩⟩] z512 (11/20)
      = .ok none := by
  have hd : dot z512 z512 = 0 := by rw [z512]; exact dot_replicate_zero 512
  refine ⟨z512_length, ?_, ?_⟩
  · simp [FaceDB.add_face, z512_length, client_upsert]
  · have hk : cosKey z512 z512 = 0 := by
      unfold cosKey cosSq normSq
      rw [if_pos (le_of_eq hd.symm), hd]
      norm_num
    have hs : scoreGE z512 z512 (11/20) = false := by
      unfold scoreGE
      rw [thrKey_default, hk]
      norm_num
    simp [FaceDB.search_face, z512_length, client_search, bestPoint, hs]

/-- C8 (amended): for every 512-dimensional embedding of nonzero norm, adding
it and then searching with the same vector at the default threshold 0.55
returns a match carrying the added name, with cosine score exactly 1
(`cosKey = 1` is the signed-square encoding of score 1.0). -/
theorem c8_add_search_roundtrip :
    ∀ (v : List ℚ) (newId name : String), v.length = 512 → normSq v ≠ 0 →
      ∃ st', FaceDB.add_face true [] newId name v = .ok (newId, st') ∧
        FaceDB.search_face true st' v (11/20)
          = .ok (some [("name", PyVal.str name), ("score", PyVal.score v v)]) ∧
        cosKey v v = 1 := by
  intro v newId name h512 hnz
  refine ⟨[⟨newId, v, ⟨some name, none⟩⟩], ?_, ?_, cosKey_self hnz⟩
  · simp [FaceDB.add_face, h512, client_upsert]
  · have hs : scoreGE v v (11/20) = true := by
      unfold scoreGE
      rw [thrKey_default, cosKey_self hnz]
      norm_num
    simp [FaceDB.search_face, h512, client_search, bestPoint, hs]

/-- Witness for C8 (amended) at the concrete embedding `e512`. -/
theorem c8_add_search_roundtrip_witness :
    ∃ st', FaceDB.add_face true [] "id0" "alice" e512 = .ok ("id0", st') ∧
      FaceDB.search_face true st' e512 (11/20)
        = .ok (some [("name", PyVal.str "alice"),
                     ("score", PyVal.score e512 e512)]) ∧
      cosKey e512 e512 = 1 :=
  c8_add_search_roundtrip e512 "id0" "alice" e512_length
    (by rw [normSq_e512]; norm_num)
